import Mathlib

/-!
Shallow embedding of `drivers/watchdog/wdt_gecko.c` (Silicon Labs Gecko
watchdog driver).  `u32_t` values are modelled as `Nat`: no arithmetic in the
driver can overflow 32 bits on 32-bit inputs (the largest intermediate is
`5 * (period / 8) < 2^32`), so the `Nat` model agrees with the C semantics on
the whole `u32_t` domain.  The two C `while` loops are embedded with an explicit
fuel argument equal to the loop bound minus the start index, which makes them
structurally recursive and hence evaluable by `decide`/`rfl`.
-/

/-- `timeout_in_cycles_tbl` from wdt_gecko.c: the 16 ascending hardware
timeout periods, in cycles. -/
def timeout_in_cycles_tbl : List Nat :=
  [9, 17, 33, 65, 129, 257, 513, 1025, 2049, 4097,
   8193, 16385, 32769, 65537, 131073, 262145]

/-- The loop of `wdt_gecko_convert_timeout`:
`while (idx < ARRAY_SIZE(tbl)) { if (timeout > tbl[idx]) { idx++; continue; } break; }`.
`fuel` is `ARRAY_SIZE - idx`; when it reaches 0 the guard `idx < ARRAY_SIZE`
is false and the loop exits returning `idx`. -/
def convert_timeout_go (timeout : Nat) : Nat → Nat → Nat
  | idx, 0 => idx
  | idx, fuel + 1 =>
      if timeout_in_cycles_tbl.getD idx 0 < timeout then
        convert_timeout_go timeout (idx + 1) fuel
      else idx

/-- `wdt_gecko_convert_timeout` from wdt_gecko.c. -/
def wdt_gecko_convert_timeout (timeout : Nat) : Nat :=
  convert_timeout_go timeout 0 timeout_in_cycles_tbl.length

/-- The loop of `wdt_gecko_convert_window`:
`while (idx < 5) { if (window > comp_val) { comp_val += incr_val; idx++; continue; } break; }`.
`fuel` is `5 - idx`. -/
def convert_window_go (window incr_val : Nat) : Nat → Nat → Nat → Nat
  | idx, _comp_val, 0 => idx
  | idx, comp_val, fuel + 1 =>
      if comp_val < window then
        convert_window_go window incr_val (idx + 1) (comp_val + incr_val) fuel
      else idx

/-- `wdt_gecko_convert_window` from wdt_gecko.c: `incr_val = period / 8`,
`comp_val` starts at 0, loop bound 5. -/
def wdt_gecko_convert_window (window period : Nat) : Nat :=
  convert_window_go window (period / 8) 0 0 5

/-- Modelled from the vendor header em_wdog.h (platform collaborator, spec §6):
`wdogIllegalWindowDisable` is the `WDOG_WinSel_TypeDef` value meaning
"illegal-window interrupt disabled" (register value 0). -/
def wdogIllegalWindowDisable : Nat := 0

/-- Modelled from the vendor header em_wdog.h: `wdogWarnTime75pct`, the
`WDOG_WarnSel_TypeDef` value selecting an early warning at 75% of the
timeout period (register value 3). -/
def wdogWarnTime75pct : Nat := 3

/-- Modelled from the Zephyr header include/drivers/watchdog.h:
`WDT_FLAG_RESET_NONE = 0` (no reset on timeout). -/
def WDT_FLAG_RESET_NONE : Nat := 0

/-- Modelled from include/drivers/watchdog.h: `WDT_FLAG_RESET_CPU_CORE = 1`. -/
def WDT_FLAG_RESET_CPU_CORE : Nat := 1

/-- Modelled from include/drivers/watchdog.h: `WDT_FLAG_RESET_SOC = 2`. -/
def WDT_FLAG_RESET_SOC : Nat := 2

/-- Modelled from include/drivers/watchdog.h: `WDT_OPT_PAUSE_IN_SLEEP = BIT(0)`. -/
def WDT_OPT_PAUSE_IN_SLEEP : Nat := 1

/-- Modelled from include/drivers/watchdog.h: `WDT_OPT_PAUSE_HALTED_BY_DBG = BIT(1)`. -/
def WDT_OPT_PAUSE_HALTED_BY_DBG : Nat := 2

/-- Modelled from the vendor register map: interrupt mask bit for timeout.
The claims do not depend on the numeric value, only on the mask being passed
through unchanged. -/
def WDOG_IEN_TOUT : Nat := 1

/-- Modelled from the vendor register map: interrupt mask bit for early warning. -/
def WDOG_IF_WARN : Nat := 2

/-- The fields of the vendor struct `WDOG_Init_TypeDef` that the driver reads
or writes (the vendor struct has further fields — em4Block, lock, clkSel, … —
which the driver leaves at their `WDOG_INIT_DEFAULT` values and never touches,
so they are omitted; omitting constant fields does not affect any claim about
state change). -/
structure WDOG_Init_TypeDef where
  enable : Bool
  debugRun : Bool
  em2Run : Bool
  em3Run : Bool
  perSel : Nat
  winSel : Nat
  warnSel : Nat
  resetDisable : Bool
deriving DecidableEq, Repr

/-- Modelled from the vendor header em_wdog.h: `WDOG_INIT_DEFAULT`
(enable = true, debugRun/em2Run/em3Run = false, perSel = wdogPeriod_256k = 15,
winSel = wdogIllegalWindowDisable, warnSel = wdogWarnDisable = 0,
resetDisable = false). -/
def WDOG_INIT_DEFAULT : WDOG_Init_TypeDef :=
  { enable := true, debugRun := false, em2Run := false, em3Run := false,
    perSel := 15, winSel := wdogIllegalWindowDisable, warnSel := 0,
    resetDisable := false }

/-- `struct wdt_gecko_data`: the per-instance mutable driver state.  The C
callback function pointer is modelled by an optional identity (`none` = NULL);
the driver only stores and compares it and invokes it opaquely. -/
structure wdt_gecko_data where
  callback : Option Nat
  wdog_config : WDOG_Init_TypeDef
  timeout_valid : Bool
deriving DecidableEq, Repr

/-- `struct wdt_timeout_cfg` (Zephyr watchdog API): window bounds, flags,
optional callback. -/
structure wdt_timeout_cfg where
  window_min : Nat
  window_max : Nat
  flags : Nat
  callback : Option Nat
deriving DecidableEq, Repr

/-- The error taxonomy of the spec, mapped onto the driver's error return
branches (`alreadyConfigured` = the `-ENOMEM` branch; `outOfRange`,
`unsupportedFlag`, `noValidConfig`, `invalidChannel` = the four `-EINVAL`
branches, distinguished by which check fired). -/
inductive WdtError where
  | alreadyConfigured
  | outOfRange
  | unsupportedFlag
  | noValidConfig
  | invalidChannel
deriving DecidableEq, Repr

/-- The numeric errno each error branch returns in the C source. -/
def WdtError.errno : WdtError → Int
  | .alreadyConfigured => -12
  | _ => -22

/-- Hardware register operations the driver issues to the platform layer,
recorded in program order. -/
inductive HwOp where
  | intEnable (mask : Nat)
  | intDisable (mask : Nat)
  | hwInit (config : WDOG_Init_TypeDef)
  | hwEnable (enabled : Bool)
  | feed
  | intClear (flags : Nat)
deriving DecidableEq, Repr

/-- Result of one driver entry point: the return value, the driver state after
the call, and the hardware operations issued during the call. -/
structure WdtResult where
  ret : Except WdtError Unit
  data : wdt_gecko_data
  ops : List HwOp
deriving Repr

/-- `wdt_gecko_setup` from wdt_gecko.c. -/
def wdt_gecko_setup (data : wdt_gecko_data) (options : Nat) : WdtResult :=
  if data.timeout_valid = false then
    { ret := .error .noValidConfig, data := data, ops := [] }
  else
    let cfg := { data.wdog_config with
      em2Run := options &&& WDT_OPT_PAUSE_IN_SLEEP == 0,
      em3Run := options &&& WDT_OPT_PAUSE_IN_SLEEP == 0,
      debugRun := options &&& WDT_OPT_PAUSE_HALTED_BY_DBG == 0 }
    let irqOp :=
      if data.callback ≠ none then HwOp.intEnable (WDOG_IEN_TOUT ||| WDOG_IF_WARN)
      else HwOp.intDisable (WDOG_IEN_TOUT ||| WDOG_IF_WARN)
    { ret := .ok (), data := { data with wdog_config := cfg },
      ops := [irqOp, HwOp.hwInit cfg] }

/-- `wdt_gecko_disable` from wdt_gecko.c. -/
def wdt_gecko_disable (data : wdt_gecko_data) : WdtResult :=
  { ret := .ok (), data := { data with timeout_valid := false },
    ops := [HwOp.hwEnable false] }

/-- The staged configuration `wdt_gecko_install_timeout` writes into
`data->wdog_config` once the range check has passed and before the
`switch (cfg->flags)` validation: the defaults, then `perSel` from the
timeout ceiling search, then `winSel` (window mode when `window.min` is
nonzero, computed against the rounded-up period; otherwise disabled), then
the fixed 75% early-warning threshold. -/
def staged_wdog_config (cfg : wdt_timeout_cfg) : WDOG_Init_TypeDef :=
  let wc1 := { WDOG_INIT_DEFAULT with
    perSel := wdt_gecko_convert_timeout cfg.window_max }
  let wc2 :=
    if cfg.window_min ≠ 0 then
      { wc1 with winSel := wdt_gecko_convert_window cfg.window_min (timeout_in_cycles_tbl.getD wc1.perSel 0) }
    else
      { wc1 with winSel := wdogIllegalWindowDisable }
  { wc2 with warnSel := wdogWarnTime75pct }

/-- `wdt_gecko_install_timeout` from wdt_gecko.c.  Note the program order,
matching the C control flow: the staged config is written *before* the
`switch (cfg->flags)` validation, so the unsupported-flags error returns with
`wdog_config` already modified. -/
def wdt_gecko_install_timeout (data : wdt_gecko_data) (cfg : wdt_timeout_cfg) :
    WdtResult :=
  if data.timeout_valid then
    { ret := .error .alreadyConfigured, data := data, ops := [] }
  else if cfg.window_max < timeout_in_cycles_tbl.getD 0 0 ∨
      timeout_in_cycles_tbl.getD (timeout_in_cycles_tbl.length - 1) 0 <
        cfg.window_max then
    { ret := .error .outOfRange, data := data, ops := [] }
  else if cfg.flags = WDT_FLAG_RESET_SOC ∨ cfg.flags = WDT_FLAG_RESET_CPU_CORE then
    let wc := { staged_wdog_config cfg with resetDisable := false }
    { ret := .ok (), data := { data with wdog_config := wc, callback := cfg.callback, timeout_valid := true }, ops := [] }
  else if cfg.flags = WDT_FLAG_RESET_NONE then
    let wc := { staged_wdog_config cfg with resetDisable := true }
    { ret := .ok (), data := { data with wdog_config := wc, callback := cfg.callback, timeout_valid := true }, ops := [] }
  else
    { ret := .error .unsupportedFlag, data := { data with wdog_config := staged_wdog_config cfg }, ops := [] }

/-- `wdt_gecko_feed` from wdt_gecko.c.  The C `channel_id` is an `int`. -/
def wdt_gecko_feed (data : wdt_gecko_data) (channel_id : Int) : WdtResult :=
  if channel_id ≠ 0 then
    { ret := .error .invalidChannel, data := data, ops := [] }
  else
    { ret := .ok (), data := data, ops := [HwOp.feed] }

/-- Result of the interrupt handler: hardware operations, and the channel ids
passed to the user callback, in invocation order. -/
structure IsrResult where
  ops : List HwOp
  callback_calls : List Nat
deriving DecidableEq, Repr

/-- `wdt_gecko_isr` from wdt_gecko.c: `flags` is the value the
`WDOGn_IntGet` read returned; the handler clears exactly that value and then
invokes the callback (if registered) once with channel id 0. -/
def wdt_gecko_isr (data : wdt_gecko_data) (flags : Nat) : IsrResult :=
  { ops := [HwOp.intClear flags],
    callback_calls := match data.callback with
      | some _ => [0]
      | none => [] }

/-- A freshly initialized driver instance: in the Zephyr device model the
per-instance `struct wdt_gecko_data` is static (zero callback, zeroed config
never yet read, `timeout_valid = false`); the staged config value is
irrelevant while `timeout_valid` is false, we pick `WDOG_INIT_DEFAULT`. -/
def dUninit : wdt_gecko_data :=
  { callback := none, wdog_config := WDOG_INIT_DEFAULT, timeout_valid := false }

/-- A driver instance with a registered callback. -/
def dWithCb : wdt_gecko_data :=
  { callback := some 1, wdog_config := WDOG_INIT_DEFAULT, timeout_valid := true }

/-- A well-formed install request (in-range upper bound, SoC reset). -/
def cfgOk : wdt_timeout_cfg :=
  { window_min := 0, window_max := 1000, flags := WDT_FLAG_RESET_SOC,
    callback := none }

/-- An install request whose upper window bound 1 is below `PeriodTable[0]`. -/
def cfgMax1 : wdt_timeout_cfg :=
  { window_min := 0, window_max := 1, flags := WDT_FLAG_RESET_SOC,
    callback := none }

/-- An install request with an in-range upper bound but an unsupported flags
value (7 is none of RESET_NONE/RESET_CPU_CORE/RESET_SOC). -/
def cfgBadFlags : wdt_timeout_cfg :=
  { window_min := 0, window_max := 9, flags := 7, callback := none }

/-! ### Basic facts about the period table -/

theorem tbl_length : timeout_in_cycles_tbl.length = 16 := rfl

theorem tbl_getD_zero : timeout_in_cycles_tbl.getD 0 0 = 9 := rfl

theorem tbl_getD_last :
    timeout_in_cycles_tbl.getD (timeout_in_cycles_tbl.length - 1) 0 = 262145 := rfl

theorem tbl_entries_le (j : Nat) (h : j < 16) :
    timeout_in_cycles_tbl.getD j 0 ≤ 262145 := by
  interval_cases j <;> decide

/-! ### Loop lemmas for `convert_timeout_go` -/

theorem convert_timeout_go_bounds (t : Nat) :
    ∀ fuel idx, idx ≤ convert_timeout_go t idx fuel ∧
      convert_timeout_go t idx fuel ≤ idx + fuel := by
  intro fuel
  induction fuel with
  | zero => intro idx; simp [convert_timeout_go]
  | succ n ih =>
      intro idx
      simp only [convert_timeout_go]
      split
      · have h := ih (idx + 1)
        omega
      · omega

theorem convert_timeout_go_found (t : Nat) :
    ∀ fuel idx, convert_timeout_go t idx fuel < idx + fuel →
      t ≤ timeout_in_cycles_tbl.getD (convert_timeout_go t idx fuel) 0 := by
  intro fuel
  induction fuel with
  | zero => intro idx h; simp [convert_timeout_go] at h
  | succ n ih =>
      intro idx
      simp only [convert_timeout_go]
      split
      · intro h
        exact ih (idx + 1) (by omega)
      · intro _
        omega

theorem convert_timeout_go_min (t : Nat) :
    ∀ fuel idx, ∀ j, idx ≤ j → j < convert_timeout_go t idx fuel →
      timeout_in_cycles_tbl.getD j 0 < t := by
  intro fuel
  induction fuel with
  | zero =>
      intro idx j hij hj
      simp [convert_timeout_go] at hj
      omega
  | succ n ih =>
      intro idx j hij hj
      simp only [convert_timeout_go] at hj
      rcases Nat.lt_or_ge (timeout_in_cycles_tbl.getD idx 0) t with hc | hc
      · rw [if_pos hc] at hj
        rcases Nat.eq_or_lt_of_le hij with heq | hlt
        · exact heq ▸ hc
        · exact ih (idx + 1) j hlt hj
      · rw [if_neg (by omega)] at hj
        omega

theorem convert_timeout_go_mono {a b : Nat} (hab : a ≤ b) :
    ∀ fuel idx, convert_timeout_go a idx fuel ≤ convert_timeout_go b idx fuel := by
  intro fuel
  induction fuel with
  | zero => intro idx; simp [convert_timeout_go]
  | succ n ih =>
      intro idx
      simp only [convert_timeout_go]
      rcases Nat.lt_or_ge (timeout_in_cycles_tbl.getD idx 0) a with hc | hc
      · rw [if_pos hc, if_pos (by omega)]
        exact ih (idx + 1)
      · rw [if_neg (by omega)]
        split
        · exact (convert_timeout_go_bounds b n (idx + 1)).1.trans' (by omega)
        · exact Nat.le_refl idx

/-! ### Loop lemmas for `convert_window_go` -/

theorem convert_window_go_bounds (w incr : Nat) :
    ∀ fuel idx comp, idx ≤ convert_window_go w incr idx comp fuel ∧
      convert_window_go w incr idx comp fuel ≤ idx + fuel := by
  intro fuel
  induction fuel with
  | zero => intro idx comp; simp [convert_window_go]
  | succ n ih =>
      intro idx comp
      simp only [convert_window_go]
      split
      · have h := ih (idx + 1) (comp + incr)
        omega
      · omega

theorem convert_window_go_found (w incr : Nat) :
    ∀ fuel idx comp, comp = idx * incr →
      convert_window_go w incr idx comp fuel < idx + fuel →
      w ≤ convert_window_go w incr idx comp fuel * incr := by
  intro fuel
  induction fuel with
  | zero => intro idx comp _ h; simp [convert_window_go] at h
  | succ n ih =>
      intro idx comp hcomp
      simp only [convert_window_go]
      split
      · intro h
        exact ih (idx + 1) (comp + incr) (by rw [hcomp, Nat.succ_mul]) (by omega)
      · intro _
        omega

theorem convert_window_go_min (w incr : Nat) :
    ∀ fuel idx comp, comp = idx * incr →
      ∀ j, idx ≤ j → j < convert_window_go w incr idx comp fuel →
      j * incr < w := by
  intro fuel
  induction fuel with
  | zero =>
      intro idx comp _ j hij hj
      simp [convert_window_go] at hj
      omega
  | succ n ih =>
      intro idx comp hcomp j hij hj
      simp only [convert_window_go] at hj
      rcases Nat.lt_or_ge comp w with hc | hc
      · rw [if_pos hc] at hj
        rcases Nat.eq_or_lt_of_le hij with heq | hlt
        · exact heq ▸ hcomp ▸ hc
        · exact ih (idx + 1) (comp + incr) (by rw [hcomp, Nat.succ_mul]) j hlt hj
      · rw [if_neg (by omega)] at hj
        omega

/-! ### Quantizer correctness -/

/-- Under the driver's range check (`window.max ≤ 262145`), the ceiling search
stays within the table. -/
theorem convert_timeout_le_15 (r : Nat) (h : r ≤ 262145) :
    wdt_gecko_convert_timeout r ≤ 15 := by
  by_contra hgt
  push_neg at hgt
  have h15 : timeout_in_cycles_tbl.getD 15 0 < r := by
    apply convert_timeout_go_min r timeout_in_cycles_tbl.length 0 15 (Nat.zero_le _)
    exact hgt
  have : timeout_in_cycles_tbl.getD 15 0 = 262145 := rfl
  omega

/-- C3: for every `requested` within `[PeriodTable[0], PeriodTable[15]] = [9, 262145]`,
`convert_timeout(requested)` returns the unique smallest index `i` with
`PeriodTable[i] >= requested` (the returned index is at most 15, its table
entry is `≥ requested`, every earlier entry is `< requested`); in particular
`convert_timeout 9 = 0`, `convert_timeout 10 = 1`, `convert_timeout 262145 = 15`;
and for every `requested` greater than every table entry it returns 16, one
past the table. -/
theorem convert_timeout_ceiling_spec :
    (∀ r, 9 ≤ r → r ≤ 262145 →
      wdt_gecko_convert_timeout r ≤ 15 ∧
      r ≤ timeout_in_cycles_tbl.getD (wdt_gecko_convert_timeout r) 0 ∧
      (∀ j, j < wdt_gecko_convert_timeout r → timeout_in_cycles_tbl.getD j 0 < r)) ∧
    wdt_gecko_convert_timeout 9 = 0 ∧
    wdt_gecko_convert_timeout 10 = 1 ∧
    wdt_gecko_convert_timeout 262145 = 15 ∧
    (∀ r, 262145 < r → wdt_gecko_convert_timeout r = 16) := by
  refine ⟨?_, rfl, rfl, rfl, ?_⟩
  · intro r _ hle
    refine ⟨convert_timeout_le_15 r hle, ?_, ?_⟩
    · apply convert_timeout_go_found r timeout_in_cycles_tbl.length 0
      show wdt_gecko_convert_timeout r < 0 + timeout_in_cycles_tbl.length
      have h := convert_timeout_le_15 r hle
      rw [tbl_length]
      omega
    · intro j hj
      exact convert_timeout_go_min r timeout_in_cycles_tbl.length 0 j (Nat.zero_le _) hj
  · intro r hgt
    have hub : wdt_gecko_convert_timeout r ≤ 0 + timeout_in_cycles_tbl.length :=
      (convert_timeout_go_bounds r timeout_in_cycles_tbl.length 0).2
    rw [tbl_length] at hub
    by_contra hne
    have hlt : wdt_gecko_convert_timeout r < 16 := by omega
    have hfound : r ≤ timeout_in_cycles_tbl.getD (wdt_gecko_convert_timeout r) 0 := by
      apply convert_timeout_go_found r timeout_in_cycles_tbl.length 0
      show wdt_gecko_convert_timeout r < 0 + timeout_in_cycles_tbl.length
      rw [tbl_length]
      omega
    have hmax := tbl_entries_le (wdt_gecko_convert_timeout r) hlt
    omega

/-- C3 witness: the general part of `convert_timeout_ceiling_spec` evaluated
at `requested = 100` and the overflow part at `requested = 262146`. -/
theorem convert_timeout_ceiling_spec_witness :
    (wdt_gecko_convert_timeout 100 ≤ 15 ∧
      100 ≤ timeout_in_cycles_tbl.getD (wdt_gecko_convert_timeout 100) 0) ∧
    wdt_gecko_convert_timeout 262146 = 16 :=
  ⟨⟨(convert_timeout_ceiling_spec.1 100 (by decide) (by decide)).1,
    (convert_timeout_ceiling_spec.1 100 (by decide) (by decide)).2.1⟩,
   convert_timeout_ceiling_spec.2.2.2.2 262146 (by decide)⟩

/-- C7: `convert_timeout` is monotonic non-decreasing in its input. -/
theorem convert_timeout_monotone (a b : Nat) (hab : a ≤ b) :
    wdt_gecko_convert_timeout a ≤ wdt_gecko_convert_timeout b :=
  convert_timeout_go_mono hab timeout_in_cycles_tbl.length 0

/-- C7 witness: monotonicity at the concrete pair (10, 100). -/
theorem convert_timeout_monotone_witness :
    wdt_gecko_convert_timeout 10 ≤ wdt_gecko_convert_timeout 100 :=
  convert_timeout_monotone 10 100 (by decide)

/-- C1 counterexample: the claim predicts `convert_window 8193 65537 = 1` and
a result never exceeding 4, but the code returns 2 there, and returns 5 (not 4)
for a minimum request above all thresholds, e.g. `convert_window 65537 65537 = 5`. -/
theorem convert_window_claim_counterexample :
    wdt_gecko_convert_window 8193 65537 = 2 ∧
    wdt_gecko_convert_window 65537 65537 = 5 :=
  ⟨rfl, rfl⟩

/-- C1 (amended): for every `period_cycles > 0` and `requested_min` in
`[0, period_cycles]`, `convert_window` returns the smallest index in `0..=5`
such that `requested_min ≤ index × (period_cycles / 8)` (the result is at most
5, a result below 5 satisfies its own threshold, and every smaller index
misses its threshold), saturating at 5 — never more than 5 — when
`requested_min` exceeds the 6th threshold; in particular
`convert_window 0 65537 = 0` and `convert_window 8193 65537 = 2`. -/
theorem convert_window_ceiling_spec (w p : Nat) (_hp : 0 < p) (_hw : w ≤ p) :
    wdt_gecko_convert_window w p ≤ 5 ∧
    (wdt_gecko_convert_window w p < 5 →
      w ≤ wdt_gecko_convert_window w p * (p / 8)) ∧
    (∀ j, j < wdt_gecko_convert_window w p → j * (p / 8) < w) ∧
    wdt_gecko_convert_window 0 65537 = 0 ∧
    wdt_gecko_convert_window 8193 65537 = 2 := by
  refine ⟨?_, ?_, ?_, rfl, rfl⟩
  · have h := (convert_window_go_bounds w (p / 8) 5 0 0).2
    simpa using h
  · intro hlt
    apply convert_window_go_found w (p / 8) 5 0 0 (by simp)
    simpa using hlt
  · intro j hj
    exact convert_window_go_min w (p / 8) 5 0 0 (by simp) j (Nat.zero_le _) hj

/-- C1 witness: the amended characterization evaluated at
`requested_min = 8193`, `period_cycles = 65537`. -/
theorem convert_window_ceiling_spec_witness :
    wdt_gecko_convert_window 8193 65537 ≤ 5 ∧
    (wdt_gecko_convert_window 8193 65537 < 5 →
      8193 ≤ wdt_gecko_convert_window 8193 65537 * (65537 / 8)) :=
  ⟨(convert_window_ceiling_spec 8193 65537 (by decide) (by decide)).1,
   (convert_window_ceiling_spec 8193 65537 (by decide) (by decide)).2.1⟩

/-- C4: under `install_timeout`'s range check on `window.max` (which the
control flow runs strictly before any table indexing — in
`wdt_gecko_install_timeout` the `timeout_in_cycles_tbl.getD wc1.perSel`
access only occurs in the branch where the check has passed), the index
`convert_timeout window.max` used as `perSel` is at most 15 and the table
access is in bounds. -/
theorem install_timeout_table_access_in_bounds (cfg : wdt_timeout_cfg)
    (_h1 : timeout_in_cycles_tbl.getD 0 0 ≤ cfg.window_max)
    (h2 : cfg.window_max ≤
      timeout_in_cycles_tbl.getD (timeout_in_cycles_tbl.length - 1) 0) :
    wdt_gecko_convert_timeout cfg.window_max ≤ 15 ∧
    wdt_gecko_convert_timeout cfg.window_max < timeout_in_cycles_tbl.length := by
  rw [tbl_getD_last] at h2
  have h := convert_timeout_le_15 cfg.window_max h2
  rw [tbl_length]
  omega

/-- C4 witness: in-bounds indexing at the extreme in-range request
`window_max = 262145`. -/
theorem install_timeout_table_access_in_bounds_witness :
    wdt_gecko_convert_timeout 262145 ≤ 15 ∧
    wdt_gecko_convert_timeout 262145 < timeout_in_cycles_tbl.length :=
  install_timeout_table_access_in_bounds
    { window_min := 0, window_max := 262145, flags := WDT_FLAG_RESET_SOC,
      callback := none } (by decide) (by decide)


/-! ### Controller state machine -/

/-- A successful `install_timeout` marks the staged configuration valid. -/
theorem install_timeout_ok_valid (d : wdt_gecko_data) (cfg : wdt_timeout_cfg)
    (h : (wdt_gecko_install_timeout d cfg).ret = .ok ()) :
    (wdt_gecko_install_timeout d cfg).data.timeout_valid = true := by
  unfold wdt_gecko_install_timeout at h ⊢
  by_cases h1 : d.timeout_valid = true
  · rw [if_pos h1] at h
    exact Except.noConfusion h
  · rw [if_neg h1] at h ⊢
    by_cases h2 : cfg.window_max < timeout_in_cycles_tbl.getD 0 0 ∨
        timeout_in_cycles_tbl.getD (timeout_in_cycles_tbl.length - 1) 0 <
          cfg.window_max
    · rw [if_pos h2] at h
      exact Except.noConfusion h
    · rw [if_neg h2] at h ⊢
      by_cases h3 : cfg.flags = WDT_FLAG_RESET_SOC ∨
          cfg.flags = WDT_FLAG_RESET_CPU_CORE
      · rw [if_pos h3]
      · rw [if_neg h3] at h ⊢
        by_cases h4 : cfg.flags = WDT_FLAG_RESET_NONE
        · rw [if_pos h4]
        · rw [if_neg h4] at h
          exact Except.noConfusion h

/-- C5: if a first `install_timeout` succeeds, a second call with no
intervening `disable` fails with AlreadyConfigured (the `-ENOMEM` branch) and
leaves the configuration staged by the first call (`wdog_config`, callback
and `timeout_valid`) unchanged. -/
theorem install_timeout_twice_fails (d : wdt_gecko_data)
    (cfg1 cfg2 : wdt_timeout_cfg)
    (h : (wdt_gecko_install_timeout d cfg1).ret = .ok ()) :
    (wdt_gecko_install_timeout (wdt_gecko_install_timeout d cfg1).data cfg2).ret
        = .error .alreadyConfigured ∧
    (wdt_gecko_install_timeout (wdt_gecko_install_timeout d cfg1).data cfg2).data
        = (wdt_gecko_install_timeout d cfg1).data := by
  have hv := install_timeout_ok_valid d cfg1 h
  obtain ⟨d1, hgen⟩ : ∃ x, (wdt_gecko_install_timeout d cfg1).data = x := ⟨_, rfl⟩
  rw [hgen] at hv ⊢
  unfold wdt_gecko_install_timeout
  rw [if_pos hv]
  exact ⟨rfl, rfl⟩

/-- C5 witness: a concrete successful install followed by a second install. -/
theorem install_timeout_twice_fails_witness :
    (wdt_gecko_install_timeout (wdt_gecko_install_timeout dUninit cfgOk).data cfgOk).ret
        = .error .alreadyConfigured ∧
    (wdt_gecko_install_timeout (wdt_gecko_install_timeout dUninit cfgOk).data cfgOk).data
        = (wdt_gecko_install_timeout dUninit cfgOk).data :=
  install_timeout_twice_fails dUninit cfgOk cfgOk rfl

/-- C6: with nothing installed, a `window_max` outside `[9, 262145]`
(= `[PeriodTable[0], PeriodTable[15]]`) makes `install_timeout` fail with
OutOfRange leaving the state unchanged, and for a `window_max` inside that
interval the range check passes (the call never returns OutOfRange). -/
theorem install_timeout_out_of_range (d : wdt_gecko_data)
    (cfg : wdt_timeout_cfg) (hv : d.timeout_valid = false) :
    ((cfg.window_max < 9 ∨ 262145 < cfg.window_max) →
      (wdt_gecko_install_timeout d cfg).ret = .error .outOfRange ∧
      (wdt_gecko_install_timeout d cfg).data = d) ∧
    (9 ≤ cfg.window_max → cfg.window_max ≤ 262145 →
      (wdt_gecko_install_timeout d cfg).ret ≠ .error .outOfRange) := by
  have hv' : ¬d.timeout_valid = true := by
    rw [hv]
    exact Bool.false_ne_true
  unfold wdt_gecko_install_timeout
  rw [if_neg hv']
  constructor
  · intro hr
    have hr' : cfg.window_max < timeout_in_cycles_tbl.getD 0 0 ∨
        timeout_in_cycles_tbl.getD (timeout_in_cycles_tbl.length - 1) 0 <
          cfg.window_max := by
      rw [tbl_getD_zero, tbl_getD_last]
      exact hr
    rw [if_pos hr']
    exact ⟨rfl, rfl⟩
  · intro hlo hhi
    have hr' : ¬(cfg.window_max < timeout_in_cycles_tbl.getD 0 0 ∨
        timeout_in_cycles_tbl.getD (timeout_in_cycles_tbl.length - 1) 0 <
          cfg.window_max) := by
      rw [tbl_getD_zero, tbl_getD_last]
      omega
    rw [if_neg hr']
    by_cases h3 : cfg.flags = WDT_FLAG_RESET_SOC ∨
        cfg.flags = WDT_FLAG_RESET_CPU_CORE
    · rw [if_pos h3]
      intro h
      exact Except.noConfusion h
    · rw [if_neg h3]
      by_cases h4 : cfg.flags = WDT_FLAG_RESET_NONE
      · rw [if_pos h4]
        intro h
        exact Except.noConfusion h
      · rw [if_neg h4]
        intro h
        injection h with he
        exact WdtError.noConfusion he

/-- C6 witness: `window_max = 1` fails with OutOfRange and leaves the state
unchanged; `window_max = 1000` does not return OutOfRange. -/
theorem install_timeout_out_of_range_witness :
    ((wdt_gecko_install_timeout dUninit cfgMax1).ret = .error .outOfRange ∧
      (wdt_gecko_install_timeout dUninit cfgMax1).data = dUninit) ∧
    (wdt_gecko_install_timeout dUninit cfgOk).ret ≠ .error .outOfRange :=
  ⟨(install_timeout_out_of_range dUninit cfgMax1 rfl).1 (by decide),
   (install_timeout_out_of_range dUninit cfgOk rfl).2 (by decide) (by decide)⟩

/-- C9: `feed` with any nonzero channel id fails with InvalidChannel in every
state, issuing no hardware operation (the countdown is untouched); `feed 0`
succeeds in every state — in particular in the running state — issuing
exactly one feed operation to the platform and leaving the driver state
untouched. -/
theorem feed_channel_spec (d : wdt_gecko_data) (ch : Int) :
    (ch ≠ 0 →
      (wdt_gecko_feed d ch).ret = .error .invalidChannel ∧
      (wdt_gecko_feed d ch).data = d ∧ (wdt_gecko_feed d ch).ops = []) ∧
    ((wdt_gecko_feed d 0).ret = .ok () ∧ (wdt_gecko_feed d 0).data = d ∧
      (wdt_gecko_feed d 0).ops = [HwOp.feed]) := by
  unfold wdt_gecko_feed
  constructor
  · intro hch
    rw [if_pos hch]
    exact ⟨rfl, rfl, rfl⟩
  · rw [if_neg (by omega : ¬(0 : Int) ≠ 0)]
    exact ⟨rfl, rfl, rfl⟩

/-- C9 witness: `feed 1` on a concrete state fails with InvalidChannel and
issues no hardware operation. -/
theorem feed_channel_spec_witness :
    (wdt_gecko_feed dWithCb 1).ret = .error .invalidChannel ∧
    (wdt_gecko_feed dWithCb 1).data = dWithCb ∧
    (wdt_gecko_feed dWithCb 1).ops = [] :=
  (feed_channel_spec dWithCb 1).1 (by decide)

/-- C10: when no configuration has been installed (`timeout_valid` is false,
as after initialization or `disable`), `setup` fails with NoValidConfig,
programs no hardware, and leaves the state unchanged. -/
theorem setup_without_config_fails (d : wdt_gecko_data) (options : Nat)
    (h : d.timeout_valid = false) :
    (wdt_gecko_setup d options).ret = .error .noValidConfig ∧
    (wdt_gecko_setup d options).data = d ∧
    (wdt_gecko_setup d options).ops = [] := by
  unfold wdt_gecko_setup
  rw [if_pos h]
  exact ⟨rfl, rfl, rfl⟩

/-- C10 witness: `setup` on the freshly initialized state. -/
theorem setup_without_config_fails_witness :
    (wdt_gecko_setup dUninit 0).ret = .error .noValidConfig ∧
    (wdt_gecko_setup dUninit 0).data = dUninit ∧
    (wdt_gecko_setup dUninit 0).ops = [] :=
  setup_without_config_fails dUninit 0 rfl

/-- C8: for every interrupt delivery, the handler clears exactly the
interrupt flags it read (the single `intClear` uses the value the read
returned); with a registered callback it invokes the callback exactly once,
with channel id 0; with no registered callback it invokes nothing. -/
theorem isr_callback_and_flags (d : wdt_gecko_data) (flags : Nat) :
    (wdt_gecko_isr d flags).ops = [HwOp.intClear flags] ∧
    (d.callback ≠ none → (wdt_gecko_isr d flags).callback_calls = [0]) ∧
    (d.callback = none → (wdt_gecko_isr d flags).callback_calls = []) := by
  refine ⟨rfl, ?_, ?_⟩
  · intro h
    unfold wdt_gecko_isr
    cases hc : d.callback with
    | none => exact absurd hc h
    | some c => rfl
  · intro h
    unfold wdt_gecko_isr
    rw [h]

/-- C8 witness: a delivery with flags value 5 to a state with a registered
callback. -/
theorem isr_callback_and_flags_witness :
    (wdt_gecko_isr dWithCb 5).ops = [HwOp.intClear 5] ∧
    (wdt_gecko_isr dWithCb 5).callback_calls = [0] :=
  ⟨(isr_callback_and_flags dWithCb 5).1,
   (isr_callback_and_flags dWithCb 5).2.1 (by decide)⟩

/-- C2 counterexample: `install_timeout` on a fresh state with an in-range
`window_max` but an unsupported flags value (7) returns an error, yet the
staged `wdog_config` has already been overwritten (perSel/winSel/warnSel are
written before the flags check runs), so the controller state is not what it
was before the call. -/
theorem install_timeout_error_mutates_config :
    (wdt_gecko_install_timeout dUninit cfgBadFlags).ret =
        .error .unsupportedFlag ∧
    (wdt_gecko_install_timeout dUninit cfgBadFlags).data ≠ dUninit := by
  constructor
  · rfl
  · decide

/-- C2 (amended): an operation returning an error leaves the registered
callback and the `timeout_valid` flag unchanged in every case, and leaves the
whole controller state (including the staged `wdog_config`) unchanged in
every case except `install_timeout`'s unsupported-flags error, which returns
with the freshly quantized values already written into `wdog_config`;
`setup` and `feed` errors leave the whole state unchanged, and `disable`
never returns an error. -/
theorem error_return_state_spec (d : wdt_gecko_data) (cfg : wdt_timeout_cfg)
    (options : Nat) (ch : Int) (e : WdtError) :
    ((wdt_gecko_setup d options).ret = .error e →
      (wdt_gecko_setup d options).data = d) ∧
    ((wdt_gecko_feed d ch).ret = .error e → (wdt_gecko_feed d ch).data = d) ∧
    (wdt_gecko_disable d).ret ≠ .error e ∧
    ((wdt_gecko_install_timeout d cfg).ret = .error e →
      (wdt_gecko_install_timeout d cfg).data.callback = d.callback ∧
      (wdt_gecko_install_timeout d cfg).data.timeout_valid = d.timeout_valid ∧
      (e ≠ .unsupportedFlag → (wdt_gecko_install_timeout d cfg).data = d)) := by
  refine ⟨?_, ?_, ?_, ?_⟩
  · unfold wdt_gecko_setup
    by_cases hv : d.timeout_valid = false
    · rw [if_pos hv]
      intro _
      rfl
    · rw [if_neg hv]
      intro h
      exact Except.noConfusion h
  · unfold wdt_gecko_feed
    by_cases hch : ch ≠ 0
    · rw [if_pos hch]
      intro _
      rfl
    · rw [if_neg hch]
      intro h
      exact Except.noConfusion h
  · intro h
    exact Except.noConfusion h
  · unfold wdt_gecko_install_timeout
    by_cases h1 : d.timeout_valid = true
    · rw [if_pos h1]
      intro _
      exact ⟨rfl, rfl, fun _ => rfl⟩
    · rw [if_neg h1]
      by_cases h2 : cfg.window_max < timeout_in_cycles_tbl.getD 0 0 ∨
          timeout_in_cycles_tbl.getD (timeout_in_cycles_tbl.length - 1) 0 <
            cfg.window_max
      · rw [if_pos h2]
        intro _
        exact ⟨rfl, rfl, fun _ => rfl⟩
      · rw [if_neg h2]
        by_cases h3 : cfg.flags = WDT_FLAG_RESET_SOC ∨
            cfg.flags = WDT_FLAG_RESET_CPU_CORE
        · rw [if_pos h3]
          intro h
          exact Except.noConfusion h
        · rw [if_neg h3]
          by_cases h4 : cfg.flags = WDT_FLAG_RESET_NONE
          · rw [if_pos h4]
            intro h
            exact Except.noConfusion h
          · rw [if_neg h4]
            intro h
            injection h with he
            exact ⟨rfl, rfl, fun hne => absurd he.symm hne⟩

/-- C2 witness: the amended guarantees evaluated on concrete erroring calls
(`setup` on a fresh state, `feed 1`, and an out-of-range install). -/
theorem error_return_state_spec_witness :
    (wdt_gecko_setup dUninit 0).data = dUninit ∧
    (wdt_gecko_feed dUninit 1).data = dUninit ∧
    (wdt_gecko_install_timeout dUninit cfgMax1).data = dUninit :=
  ⟨(error_return_state_spec dUninit cfgMax1 0 1 .noValidConfig).1 rfl,
   (error_return_state_spec dUninit cfgMax1 0 1 .invalidChannel).2.1 rfl,
   ((error_return_state_spec dUninit cfgMax1 0 1 .outOfRange).2.2.2 rfl).2.2
     (by decide)⟩
